import Mathlib

/-!
Verification development for `src/PersistFormikValues.tsx`.

The file shallowly embeds the persistence helper: JSON values and their
serialization, the checksum-based storage-key derivation (`getHash`), the
storage resolution (`useStorage`), the read path of `usePersistedString`,
the write path (`handlePersist` / `handlePersistValues`) and the restore
effect of `PersistFormikValuesMemo`.  JavaScript machine details that the
claims depend on are modelled explicitly: string truthiness, microtask
scheduling of promise callbacks, and global-name resolution.
-/

set_option autoImplicit false

namespace FormikPersist

/-- JSON-serializable JavaScript values: the values a Formik form holds and
the results of `JSON.parse`.  Numbers are modelled as integers (the claims
only exercise integral numerals). -/
inductive JValue where
  | null : JValue
  | bool (b : Bool) : JValue
  | num (n : Int) : JValue
  | str (s : String) : JValue
  | arr (elems : List JValue) : JValue
  | obj (fields : List (String × JValue)) : JValue
deriving Repr

/-- Escape one character the way `JSON.stringify` escapes string contents
(quotes, backslashes and the common control characters). -/
def jsonEscapeChar (c : Char) : String :=
  if c = '"' then "\\\""
  else if c = '\\' then "\\\\"
  else if c = '\n' then "\\n"
  else if c = '\t' then "\\t"
  else if c = '\r' then "\\r"
  else String.mk [c]

/-- Serialize a string literal as `JSON.stringify` does. -/
def jsonQuote (s : String) : String :=
  "\"" ++ String.join (s.toList.map jsonEscapeChar) ++ "\""

mutual

/-- Model of `JSON.stringify` on JSON-serializable values. -/
def jsonStringify : JValue → String
  | .null => "null"
  | .bool true => "true"
  | .bool false => "false"
  | .num n => toString n
  | .str s => jsonQuote s
  | .arr es => "[" ++ stringifyElems es ++ "]"
  | .obj fs => "\x7b" ++ stringifyFields fs ++ "\x7d"

/-- Comma-separated serialization of array elements. -/
def stringifyElems : List JValue → String
  | [] => ""
  | [v] => jsonStringify v
  | v :: rest => jsonStringify v ++ "," ++ stringifyElems rest

/-- Comma-separated serialization of object fields. -/
def stringifyFields : List (String × JValue) → String
  | [] => ""
  | [(k, v)] => jsonQuote k ++ ":" ++ jsonStringify v
  | (k, v) :: rest => jsonQuote k ++ ":" ++ jsonStringify v ++ "," ++ stringifyFields rest

end

/-- A JavaScript object handed to `getHash`: either a JSON-serializable
value, or a structure (e.g. cyclic) on which `JSON.stringify` throws. -/
inductive JsObj where
  | val (v : JValue)
  | cyclic
deriving Repr

/-- Result of attempting `JSON.stringify` on a `JsObj`; `none` models the
`TypeError` thrown on a cyclic structure. -/
def jsStringifyAttempt : JsObj → Option String
  | .val v => some (jsonStringify v)
  | .cyclic => none

/-- The characters removed by `.replace(/\{|\"|\}|\:|,/g, '')` in `getHash`. -/
def isStrippedChar (c : Char) : Bool :=
  c = '\x7b' || c = '"' || c = '\x7d' || c = ':' || c = ','

/-- Model of `.replace(/\{|\"|\}|\:|,/g, '')`: delete every occurrence of
the five punctuation characters. -/
def stripJsonPunct (s : String) : String :=
  String.mk (s.toList.filter (fun c => !isStrippedChar c))

/-- Model of `getHash` (source lines 40-53): stringify the object, strip
the punctuation, then run the loop `hc += chars.charCodeAt(i) * specificity`
starting from `hc = 0`; the `catch` branch yields `0`. -/
def getHash (obj : JsObj) (specificity : Int) : Int :=
  match jsStringifyAttempt obj with
  | some str =>
      let chars := stripJsonPunct str
      chars.toList.foldl (fun hc c => hc + (c.toNat : Int) * specificity) 0
  | none => 0

/-- The source's `KEY_DELIMITER`. -/
def KEY_DELIMITER : String := "_"

/-- Model of the `name` memo of `usePersistedString` (lines 79-87): the
storage key is `` `${keyName}${getHash(initialValues, hashSpecificity)}` ``
when `hashInitials` is set and the bare form name otherwise.  A `none`
specificity models an omitted `hashSpecificity` prop, for which `getHash`'s
default parameter `7` applies. -/
def resolveKey (defaultName : String) (initialValues : JsObj)
    (hashInitials : Bool) (hashSpecificity : Option Int) : String :=
  let keyName := defaultName ++ KEY_DELIMITER
  if hashInitials then keyName ++ toString (getHash initialValues (hashSpecificity.getD 7))
  else defaultName

/-- A storage backend's contents: association list from key to stored
string, in enumeration order of `Object.keys`. -/
abbrev Store := List (String × String)

/-- Model of `Storage.setItem`: overwrite the value of an existing key in
place, otherwise append the new entry. -/
def setItem (store : Store) (k v : String) : Store :=
  if store.any (fun kv => kv.1 = k) then
    store.map (fun kv => if kv.1 = k then (k, v) else kv)
  else store ++ [(k, v)]

/-- Model of `key.indexOf(pat) > -1`: `pat` occurs somewhere inside `s`. -/
def strContains (s pat : String) : Bool :=
  decide (pat.toList <:+: s.toList)

/-- Model of `handlePersistValues` (lines 104-117) given that the store's
operations succeed: write the serialized values under `name` with `setItem`,
then walk `Object.keys(storage)` and remove every key that contains
`keyName` and differs from `name`. -/
def handlePersistValues (store : Store) (name keyName : String) (payload : String) : Store :=
  let written := setItem store name payload
  written.filter (fun kv => !(strContains kv.1 keyName && kv.1 != name))

/-- Skip JSON whitespace. -/
def skipWs : List Char → List Char
  | c :: cs => if c = ' ' || c = '\n' || c = '\t' || c = '\r' then skipWs cs else c :: cs
  | [] => []

/-- Read the remainder of a JSON string literal (the opening quote already
consumed), accumulating characters in reverse; handles the escape sequences
`jsonEscapeChar` produces. -/
def readString : List Char → List Char → Option (String × List Char)
  | acc, '"' :: rest => some (String.mk acc.reverse, rest)
  | acc, '\\' :: e :: rest =>
      if e = '"' then readString ('"' :: acc) rest
      else if e = '\\' then readString ('\\' :: acc) rest
      else if e = '/' then readString ('/' :: acc) rest
      else if e = 'n' then readString ('\n' :: acc) rest
      else if e = 't' then readString ('\t' :: acc) rest
      else if e = 'r' then readString ('\r' :: acc) rest
      else none
  | acc, c :: rest => if c = '\\' then none else readString (c :: acc) rest
  | _, [] => none

/-- Consume a maximal run of decimal digits, folding them onto `acc`. -/
def digitsVal : Nat → List Char → Nat × List Char
  | acc, c :: cs => if c.isDigit then digitsVal (acc * 10 + (c.toNat - 48)) cs else (acc, c :: cs)
  | acc, [] => (acc, [])

/-- Read a nonempty digit run as a natural number. -/
def readNat : List Char → Option (Nat × List Char)
  | c :: cs => if c.isDigit then some (digitsVal (c.toNat - 48) cs) else none
  | [] => none

/-- Read a (possibly negated) integer numeral. -/
def readNum : List Char → Option (JValue × List Char)
  | '-' :: rest => (readNat rest).map (fun p => (JValue.num (-(p.1 : Int)), p.2))
  | cs => (readNat cs).map (fun p => (JValue.num (p.1 : Int), p.2))

/-- Form values as JavaScript object fields: field name to value, in
property order. -/
abbrev FormValues := List (String × JValue)

/-- JavaScript property assignment `obj[k] = v`: overwrite the value of an
existing key in place, otherwise append the property. -/
def objInsert (fs : FormValues) (k : String) (v : JValue) : FormValues :=
  if fs.any (fun kv => kv.1 = k) then
    fs.map (fun kv => if kv.1 = k then (k, v) else kv)
  else fs ++ [(k, v)]

mutual

/-- Recursive-descent reader for one JSON value, fuelled to make the mutual
recursion evidently total. -/
def parseVal : Nat → List Char → Option (JValue × List Char)
  | 0, _ => none
  | fuel + 1, cs =>
    match skipWs cs with
    | 'n' :: 'u' :: 'l' :: 'l' :: rest => some (.null, rest)
    | 't' :: 'r' :: 'u' :: 'e' :: rest => some (.bool true, rest)
    | 'f' :: 'a' :: 'l' :: 's' :: 'e' :: rest => some (.bool false, rest)
    | '"' :: rest => (readString [] rest).map (fun p => (.str p.1, p.2))
    | '[' :: rest =>
        (match skipWs rest with
         | ']' :: rest2 => some (.arr [], rest2)
         | cs2 => parseElems fuel cs2 [])
    | '\x7b' :: rest =>
        (match skipWs rest with
         | '\x7d' :: rest2 => some (.obj [], rest2)
         | cs2 => parseMembers fuel cs2 [])
    | cs2 => readNum cs2

/-- Read the elements of a nonempty JSON array (opening bracket consumed). -/
def parseElems : Nat → List Char → List JValue → Option (JValue × List Char)
  | 0, _, _ => none
  | fuel + 1, cs, acc =>
    match parseVal fuel cs with
    | some (v, rest) =>
        (match skipWs rest with
         | ',' :: rest2 => parseElems fuel rest2 (v :: acc)
         | ']' :: rest2 => some (.arr (v :: acc).reverse, rest2)
         | _ => none)
    | none => none

/-- Read the members of a nonempty JSON object (opening brace consumed);
duplicate keys behave like repeated property assignment, as in JavaScript. -/
def parseMembers : Nat → List Char → FormValues → Option (JValue × List Char)
  | 0, _, _ => none
  | fuel + 1, cs, acc =>
    match skipWs cs with
    | '"' :: rest =>
        match readString [] rest with
        | some (k, rest1) =>
            (match skipWs rest1 with
             | ':' :: rest2 =>
                (match parseVal fuel rest2 with
                 | some (v, rest3) =>
                     (match skipWs rest3 with
                      | ',' :: rest4 => parseMembers fuel rest4 (objInsert acc k v)
                      | '\x7d' :: rest4 => some (.obj (objInsert acc k v), rest4)
                      | _ => none)
                 | none => none)
             | _ => none)
        | none => none
    | _ => none

end

/-- Model of `JSON.parse`: succeeds exactly when the whole text is one JSON
value (plus surrounding whitespace); `none` models the thrown `SyntaxError`. -/
def jsonParse (s : String) : Option JValue :=
  match parseVal (2 * s.length + 2) s.toList with
  | some (v, rest) => if skipWs rest = [] then some v else none
  | none => none

/-- Fields contributed by `...v` in a JavaScript object literal: objects
contribute their fields, arrays and strings contribute index-keyed entries,
primitives contribute nothing. -/
def spreadFields : JValue → FormValues
  | .obj fs => fs
  | .arr es => es.enum.map (fun p => (toString p.1, p.2))
  | .str s => s.toList.enum.map (fun p => (toString p.1, JValue.str (String.mk [p.2])))
  | _ => []

/-- Model of the object literal `{ ...a, ...b }`: start from `a`'s fields
and assign each field of `b` in order. -/
def objSpread (a : FormValues) (b : JValue) : FormValues :=
  (spreadFields b).foldl (fun acc kv => objInsert acc kv.1 kv.2) a

/-- Outcome of one run of the restore effect of `PersistFormikValuesMemo`
(lines 139-153): the form values afterwards, how many diagnostics
(`console.error` calls) were emitted, and whether `setValues` was called. -/
structure RestoreResult where
  values : FormValues
  diagnostics : Nat
  didSetValues : Bool
deriving Repr

/-- Model of the restore effect (lines 139-153).  `persistedString` is the
value of `usePersistedString`'s state: `none` models `undefined`/`null`; a
JavaScript string is falsy exactly when empty, so `if (persistedString)`
also skips the body for `""`.  The `try`/`catch` around `JSON.parse` is
modelled by the match on `jsonParse`: the failure is consumed locally (one
`console.error`) and never escapes the effect. -/
def restoreEffect (persistedString : Option String)
    (initialValues currentValues : FormValues) : RestoreResult :=
  match persistedString with
  | none => ⟨currentValues, 0, false⟩
  | some s =>
    if s = "" then ⟨currentValues, 0, false⟩
    else
      match jsonParse s with
      | some persistedValues =>
          let newValues := objSpread initialValues persistedValues
          if jsonStringify (.obj currentValues) != jsonStringify (.obj newValues) then
            ⟨newValues, 0, true⟩
          else ⟨currentValues, 0, false⟩
      | none => ⟨currentValues, 1, false⟩

/-- Model of `lodash.omit(values, keys)` for plain field names: drop every
top-level field whose name is listed.  (For a name that is an own property
of the object, lodash resolves it as that direct key, so exclusion is
shallow.) -/
def omitKeys (values : FormValues) (keys : List String) : FormValues :=
  values.filter (fun kv => !(keys.contains kv.1))

/-- A JavaScript function result: `none` models `undefined`. -/
abbrev JsRet := Option JValue

/-- Model of the snapshot computation in `handlePersist` (lines 128-137):
`ignoreValues ? omitKeys(values, ignoreValues) : values`, then
`parseValues ? parseValues(valuesToPersist) : valuesToPersist`. -/
def persistedSnapshot (values : FormValues) (ignoreValues : Option (List String))
    (parseValues : Option (FormValues → JsRet)) : JsRet :=
  let valuesToPersist :=
    match ignoreValues with
    | some ig => omitKeys values ig
    | none => values
  match parseValues with
  | some f => f valuesToPersist
  | none => some (.obj valuesToPersist)

/-- The string `handlePersistValues` hands to `setItem`:
`JSON.stringify(values)`, where `JSON.stringify(undefined)` is `undefined`
and `Storage.setItem` coerces it to the string `"undefined"`. -/
def persistPayloadString : JsRet → String
  | some v => jsonStringify v
  | none => "undefined"

/-- Model of `handlePersist` (lines 128-137) acting on a store whose
operations succeed: the gate `isValid || persistInvalid` guards the whole
write; when it fails the store is untouched. -/
def handlePersist (isValid persistInvalid : Bool) (values : FormValues)
    (ignoreValues : Option (List String)) (parseValues : Option (FormValues → JsRet))
    (name keyName : String) (store : Store) : Store :=
  if isValid || persistInvalid then
    handlePersistValues store name keyName
      (persistPayloadString (persistedSnapshot values ignoreValues parseValues))
  else store

/-- What `getItem` answers for key `k` on a store: the stored string, or
`null` (here `none`) for an absent key. -/
def getItem (store : Store) (k : String) : Option String :=
  (store.find? (fun kv => kv.1 = k)).map (fun kv => kv.2)

/-- The value of `usePersistedString`'s `state` as a JavaScript value:
`null`, `undefined`, or a string. -/
inductive JsState where
  | null
  | undef
  | str (s : String)
deriving Repr, DecidableEq

/-- Model of the `state` memo of `usePersistedString` (lines 91-102).  The
body declares `let item;` (so `item` holds `undefined`), evaluates
`Promise.resolve(storage.getItem(name)).then(value => { item = value; })`
— which only queues a microtask: by JavaScript event-loop semantics that
callback runs strictly after the current synchronous code, hence after this
body has returned — and then returns `item`.  The returned value is
therefore `item`'s value at return time, whatever `getItem` answers and
whether it answers synchronously or asynchronously. -/
def stateMemo (storage : Option Store) (name : String) : JsState :=
  match storage with
  | some _ =>
      let item : JsState := .undef
      item
  | none => .null

/-- The binding status of the global name `window`. -/
inductive WindowBinding where
  | undeclared
  | declared (truthy : Bool)
deriving Repr, DecidableEq

/-- The JavaScript exceptions the models distinguish. -/
inductive JsError where
  | referenceError
  | storeError
deriving Repr, DecidableEq

/-- Model of `useBrowser` (line 56): `!!window` first resolves the global
name `window`; in an execution context where that name is not declared this
throws a `ReferenceError`, otherwise the result is `window`'s truthiness. -/
def useBrowser (w : WindowBinding) : Except JsError Bool :=
  match w with
  | .undeclared => .error .referenceError
  | .declared t => .ok t

/-- The `storage` prop with the default `'localStorage'` already applied. -/
inductive StorageChoice where
  | localStorage
  | sessionStorage
  | custom
deriving Repr, DecidableEq

/-- The store `useStorage` resolves to. -/
inductive ResolvedStorage where
  | localStore
  | sessionStore
  | customStore
deriving Repr, DecidableEq

/-- Model of `useStorage` (lines 58-72): `useBrowser()` runs first and
unconditionally; the switch then returns the browser-global store for the
two named choices (`undefined` when not in a browser) and the given custom
store otherwise. -/
def useStorage (choice : StorageChoice) (w : WindowBinding) :
    Except JsError (Option ResolvedStorage) :=
  match useBrowser w with
  | .error e => .error e
  | .ok isBrowser =>
      .ok (match choice with
        | .sessionStorage => if isBrowser then some .sessionStore else none
        | .localStorage => if isBrowser then some .localStore else none
        | .custom => some .customStore)

/-- Behaviour of one store operation when invoked: return (or resolve)
with a value, throw synchronously, or return a rejecting promise. -/
inductive OpOutcome where
  | ret (v : Option String)
  | throws
  | rejects
deriving Repr, DecidableEq

/-- A store abstracted to the behaviour of its operations plus its key
enumeration. -/
structure StoreBehavior where
  getOutcome : OpOutcome
  setOutcome : OpOutcome
  removeOutcome : OpOutcome
  keys : List String
deriving Repr, DecidableEq

/-- Model of the `state` memo (lines 91-102) against a store whose
`getItem` may throw or reject.  A synchronous throw happens before
`Promise.resolve` wraps the result, so it escapes the memo uncaught; a
rejection is consumed by the `.catch` handler, which emits one diagnostic
(in a later microtask); in every non-throwing case the memo returns
`undefined`, the `.then` callback not having run yet.  The result pairs
the returned state with the diagnostics this read eventually emits. -/
def stateMemoBehavior (sb : StoreBehavior) : Except JsError (JsState × Nat) :=
  match sb.getOutcome with
  | .throws => .error .storeError
  | .rejects => .ok (.undef, 1)
  | .ret _ => .ok (.undef, 0)

/-- Model of `handlePersistValues` (lines 104-117) against a store whose
operations may throw or reject.  `storage.setItem(...)` is called bare: a
synchronous throw escapes the handler, and a rejected promise is neither
awaited nor caught, so it produces no diagnostic.  The pruning loop then
calls `removeItem` on every enumerated key containing `keyName` other than
`name`; again a synchronous throw escapes and a rejection goes unobserved.
The result is the number of diagnostics the handler itself emits (always
`0` when it returns at all). -/
def handlePersistValuesBehavior (sb : StoreBehavior) (name keyName : String) :
    Except JsError Nat :=
  match sb.setOutcome with
  | .throws => .error .storeError
  | _ =>
      let toRemove := sb.keys.filter (fun k => strContains k keyName && k != name)
      if toRemove.isEmpty then .ok 0
      else
        match sb.removeOutcome with
        | .throws => .error .storeError
        | _ => .ok 0

/-! ## Helper lemmas -/

/-- Peeling the accumulator off the checksum loop. -/
theorem hashFoldAcc (s : Int) (l : List Char) (acc : Int) :
    l.foldl (fun hc c => hc + (c.toNat : Int) * s) acc
      = acc + l.foldl (fun hc c => hc + (c.toNat : Int) * s) 0 := by
  induction l generalizing acc with
  | nil => simp
  | cons c cs ih =>
      rw [List.foldl_cons, List.foldl_cons, ih, ih ((0 : Int) + (c.toNat : Int) * s)]
      ring

/-- The checksum loop is linear in the specificity. -/
theorem hashFoldLinear (s : Int) (l : List Char) :
    l.foldl (fun hc c => hc + (c.toNat : Int) * s) 0
      = s * l.foldl (fun hc c => hc + (c.toNat : Int) * 1) 0 := by
  induction l with
  | nil => simp
  | cons c cs ih =>
      rw [List.foldl_cons, List.foldl_cons, hashFoldAcc, hashFoldAcc 1, ih]
      ring

/-- `getHash` is the specificity times the specificity-one checksum. -/
theorem getHash_mul (obj : JsObj) (s : Int) : getHash obj s = s * getHash obj 1 := by
  cases obj with
  | cyclic => simp [getHash, jsStringifyAttempt]
  | val v =>
      simp only [getHash, jsStringifyAttempt]
      exact hashFoldLinear s _

/-- The restore effect under a successfully parsed payload. -/
theorem restoreEffect_parse_ok (payload : String) (initialValues currentValues : FormValues)
    (pv : JValue) (hne : payload ≠ "") (hparse : jsonParse payload = some pv) :
    restoreEffect (some payload) initialValues currentValues
      = if jsonStringify (.obj currentValues) != jsonStringify (.obj (objSpread initialValues pv))
        then ⟨objSpread initialValues pv, 0, true⟩
        else ⟨currentValues, 0, false⟩ := by
  simp only [restoreEffect]
  rw [if_neg hne, hparse]

/-- A second run of the restore effect on the state the first run produced
calls `setValues` no further and leaves the values fixed. -/
theorem restoreEffect_second_run (payload : String) (initialValues cur : FormValues)
    (pv : JValue) (hne : payload ≠ "") (hparse : jsonParse payload = some pv) :
    (restoreEffect (some payload) initialValues
        (restoreEffect (some payload) initialValues cur).values).didSetValues = false ∧
    (restoreEffect (some payload) initialValues
        (restoreEffect (some payload) initialValues cur).values).values
      = (restoreEffect (some payload) initialValues cur).values := by
  rw [restoreEffect_parse_ok payload initialValues cur pv hne hparse]
  by_cases hdiff : jsonStringify (.obj cur) = jsonStringify (.obj (objSpread initialValues pv))
  · have hb : (jsonStringify (JValue.obj cur)
        != jsonStringify (JValue.obj (objSpread initialValues pv))) = false := by
      simp [hdiff]
    rw [hb]
    simp only [Bool.false_eq_true, if_false]
    rw [restoreEffect_parse_ok payload initialValues cur pv hne hparse, hb]
    simp
  · have hb : (jsonStringify (JValue.obj cur)
        != jsonStringify (JValue.obj (objSpread initialValues pv))) = true := by
      simp [hdiff]
    rw [hb]
    simp only [if_true]
    rw [restoreEffect_parse_ok payload initialValues (objSpread initialValues pv) pv hne hparse]
    simp

/-! ## Claims -/

/-- C1: on a successful parse of the persisted payload the restore effect
computes `merged = {...initialValues, ...persistedValues}`, replaces the
current values with `merged` exactly when the two differ by serialized
content, and a second application of the same payload to the resulting
state calls `setValues` no further and leaves the values fixed. -/
theorem c1_restore_merge_idempotent (payload : String)
    (initialValues currentValues : FormValues) (pv : JValue)
    (hparse : jsonParse payload = some pv) :
    (restoreEffect (some payload) initialValues currentValues
      = if jsonStringify (.obj currentValues)
            ≠ jsonStringify (.obj (objSpread initialValues pv))
        then ⟨objSpread initialValues pv, 0, true⟩
        else ⟨currentValues, 0, false⟩) ∧
    (restoreEffect (some payload) initialValues
        (restoreEffect (some payload) initialValues currentValues).values).didSetValues
      = false ∧
    (restoreEffect (some payload) initialValues
        (restoreEffect (some payload) initialValues currentValues).values).values
      = (restoreEffect (some payload) initialValues currentValues).values := by
  have hne : payload ≠ "" := by
    intro h
    rw [h] at hparse
    exact Option.noConfusion hparse
  refine ⟨?_, restoreEffect_second_run payload initialValues currentValues pv hne hparse⟩
  rw [restoreEffect_parse_ok payload initialValues currentValues pv hne hparse]
  simp [bne_iff_ne]

/-- Witness for C1 at a concrete payload: `{"a":2}` over initial values
`{"a":1,"b":3}` parses, and the second application of the payload performs
no further mutation. -/
theorem c1_restore_merge_idempotent_witness :
    jsonParse "\x7b\"a\":2\x7d" = some (.obj [("a", JValue.num 2)]) ∧
    (restoreEffect (some "\x7b\"a\":2\x7d") [("a", JValue.num 1), ("b", JValue.num 3)]
        (restoreEffect (some "\x7b\"a\":2\x7d") [("a", JValue.num 1), ("b", JValue.num 3)]
          [("a", JValue.num 1), ("b", JValue.num 3)]).values).didSetValues = false :=
  ⟨rfl,
    (c1_restore_merge_idempotent "\x7b\"a\":2\x7d"
      [("a", JValue.num 1), ("b", JValue.num 3)]
      [("a", JValue.num 1), ("b", JValue.num 3)]
      (.obj [("a", JValue.num 2)]) rfl).2.1⟩

/-- C2: after a write through `handlePersistValues`, every key of the store
that carries the `formName + "_"` prefix and is not the just-written key
has been removed — at most the current key's payload survives per form
name; in particular rotating from key `form_123` to key `form_456` leaves
only `form_456` in the store. -/
theorem c2_prune_prefix_invariant :
    (∀ (store : Store) (name formName payload : String),
      ∀ kv ∈ handlePersistValues store name (formName ++ "_") payload,
        (formName ++ "_").toList <+: kv.1.toList → kv.1 = name) ∧
    handlePersistValues (handlePersistValues [] "form_123" "form_" "v1")
        "form_456" "form_" "v2" = [("form_456", "v2")] := by
  constructor
  · intro store name formName payload kv hmem hpre
    rcases List.mem_filter.mp hmem with ⟨-, hp⟩
    simp [strContains, bne] at hp
    rcases hp with h | h
    · exact absurd hpre.isInfix (by simpa using h)
    · exact h
  · rfl

/-- Witness for C2: in the store obtained by persisting under `form_123`
and then under `form_456`, the surviving prefixed key is exactly the
just-written one. -/
theorem c2_prune_prefix_invariant_witness :
    (("form_456", "v2") ∈ handlePersistValues [("form_123", "v1")] "form_456"
        ("form" ++ "_") "v2" ∧
      ("form" ++ "_").toList <+: "form_456".toList) ∧
    "form_456" = "form_456" :=
  ⟨⟨by decide, by decide⟩,
    c2_prune_prefix_invariant.1 [("form_123", "v1")] "form_456" "form" "v2"
      ("form_456", "v2") (by decide) (by decide)⟩

/-- C4: the storage key is the bare form name when `hashInitials` is off
and `formName ++ "_" ++ checksum` when it is on (with the default
specificity 7 for an omitted `hashSpecificity`); the checksum of a
non-serializable object is 0 instead of an error; and the checksum depends
only on the serialized content of the object. -/
theorem c4_key_resolution :
    (∀ (formName : String) (obj : JsObj) (spec : Option Int),
        resolveKey formName obj false spec = formName) ∧
    (∀ (formName : String) (obj : JsObj) (spec : Option Int),
        resolveKey formName obj true spec
          = formName ++ "_" ++ toString (getHash obj (spec.getD 7))) ∧
    (∀ (s : Int), getHash .cyclic s = 0) ∧
    (∀ (a b : JsObj) (s : Int), jsStringifyAttempt a = jsStringifyAttempt b →
        getHash a s = getHash b s) := by
  refine ⟨fun _ _ _ => rfl, fun formName obj spec => ?_, fun _ => rfl, fun a b s h => ?_⟩
  · simp [resolveKey, KEY_DELIMITER, String.append_assoc]
  · simp only [getHash, h]

/-- Witness for C4: two objects with the same serialized content get the
same checksum, evaluated at the pair of one-field objects `{"a":1}`. -/
theorem c4_key_resolution_witness :
    jsStringifyAttempt (.val (.obj [("a", JValue.num 1)]))
      = jsStringifyAttempt (.val (.obj [("a", JValue.num 1)])) ∧
    getHash (.val (.obj [("a", JValue.num 1)])) 7
      = getHash (.val (.obj [("a", JValue.num 1)])) 7 :=
  ⟨rfl, c4_key_resolution.2.2.2 _ _ 7 rfl⟩

/-- C5: with `persistInvalid` false and the form invalid, any number of
firings of the persist handler leaves the store untouched; and the write
goes through to `handlePersistValues` exactly when the gate
`isValid || persistInvalid` passes. -/
theorem c5_invalid_no_write :
    (∀ (n : Nat) (values : FormValues) (ig : Option (List String))
        (pv : Option (FormValues → JsRet)) (name keyName : String) (store : Store),
      (fun s => handlePersist false false values ig pv name keyName s)^[n] store = store) ∧
    (∀ (isValid persistInvalid : Bool) (values : FormValues) (ig : Option (List String))
        (pv : Option (FormValues → JsRet)) (name keyName : String) (store : Store),
      isValid = true ∨ persistInvalid = true →
      handlePersist isValid persistInvalid values ig pv name keyName store
        = handlePersistValues store name keyName
            (persistPayloadString (persistedSnapshot values ig pv))) := by
  constructor
  · intro n values ig pv name keyName store
    exact Function.iterate_fixed rfl n
  · intro isValid persistInvalid values ig pv name keyName store hgate
    have : (isValid || persistInvalid) = true := by
      rcases hgate with h | h <;> simp [h]
    simp [handlePersist, this]

/-- Witness for C5: five invalid-state firings leave the empty store empty,
and a valid-state firing performs the write. -/
theorem c5_invalid_no_write_witness :
    (fun s => handlePersist false false [("a", JValue.num 1)] none none
        "form" "form_" s)^[5] [] = ([] : Store) ∧
    handlePersist true false [("a", JValue.num 1)] none none "form" "form_" []
      = handlePersistValues [] "form" "form_"
          (persistPayloadString (persistedSnapshot [("a", JValue.num 1)] none none)) :=
  ⟨c5_invalid_no_write.1 5 [("a", JValue.num 1)] none none "form" "form_" [],
    c5_invalid_no_write.2 true false [("a", JValue.num 1)] none none "form" "form_" []
      (Or.inl rfl)⟩

/-- C6: the persisted snapshot is the transform applied to the
ignore-filtered values; a field survives the filter exactly when it is a
field of the input whose name is not ignored (shallow, by field name);
persisting `{username:"a",password:"b"}` with `ignoreValues=["password"]`
stores only `{"username":"a"}`, while a nested field named `password` is
not touched. -/
theorem c6_write_pipeline :
    (∀ (values : FormValues) (ig : List String) (f : FormValues → JsRet),
        persistedSnapshot values (some ig) (some f) = f (omitKeys values ig)) ∧
    (∀ (values : FormValues) (ig : List String) (kv : String × JValue),
        kv ∈ omitKeys values ig ↔ kv ∈ values ∧ ig.contains kv.1 = false) ∧
    (handlePersist true false [("username", .str "a"), ("password", .str "b")]
        (some ["password"]) none "form" "form_" []
      = [("form", "\x7b\"username\":\"a\"\x7d")]) ∧
    (handlePersist true false [("user", .obj [("password", .str "b")])]
        (some ["password"]) none "form" "form_" []
      = [("form", "\x7b\"user\":\x7b\"password\":\"b\"\x7d\x7d")]) := by
  refine ⟨fun _ _ _ => rfl, fun values ig kv => ?_, rfl, rfl⟩
  simp [omitKeys, List.mem_filter]

/-- Witness for C6: the `username` field survives the filter of the
example snapshot, by the field-survival characterization. -/
theorem c6_write_pipeline_witness :
    ("username", JValue.str "a")
      ∈ omitKeys [("username", JValue.str "a"), ("password", JValue.str "b")] ["password"] :=
  (c6_write_pipeline.2.1 [("username", JValue.str "a"), ("password", JValue.str "b")]
      ["password"] ("username", JValue.str "a")).mpr
    ⟨List.Mem.head _, by decide⟩

/-- C10 counterexample: the checksums of `"a"` and `"b"` collide at
specificity 0 yet differ at the default specificity 7, so two objects
colliding at one specificity need not collide at every specificity. -/
theorem c10_specificity_zero_counterexample :
    getHash (.val (.str "a")) 0 = getHash (.val (.str "b")) 0 ∧
    getHash (.val (.str "a")) 7 ≠ getHash (.val (.str "b")) 7 := by
  refine ⟨by decide, by decide⟩

/-- C10 (amended): the checksum is linear in the specificity,
`checksum(obj, s) = s * checksum(obj, 1)` (with both sides 0 on a
non-serializable object), and a collision at one NONZERO specificity
transfers to every specificity. -/
theorem c10_checksum_linearity :
    (∀ (obj : JsObj) (s : Int), getHash obj s = s * getHash obj 1) ∧
    (∀ (a b : JsObj) (s t : Int), s ≠ 0 → getHash a s = getHash b s →
        getHash a t = getHash b t) := by
  refine ⟨getHash_mul, fun a b s t hs h => ?_⟩
  have h1 : getHash a 1 = getHash b 1 := by
    rw [getHash_mul a s, getHash_mul b s] at h
    exact mul_left_cancel₀ hs h
  rw [getHash_mul a t, getHash_mul b t, h1]

/-- Witness for C10: the anagram objects `"ab"` and `"ba"` collide at
specificity 7, and the collision transfers to specificity 3. -/
theorem c10_checksum_linearity_witness :
    getHash (.val (.str "ab")) 14 = 14 * getHash (.val (.str "ab")) 1 ∧
    getHash (.val (.str "ab")) 3 = getHash (.val (.str "ba")) 3 :=
  ⟨c10_checksum_linearity.1 (.val (.str "ab")) 14,
    c10_checksum_linearity.2 (.val (.str "ab")) (.val (.str "ba")) 7 3
      (by decide) (by decide)⟩

/-- C3 (code bug): the read memo never awaits the store's answer — it
returns `item` while the assignment to `item` is still queued as a
microtask, so the persisted string is `undefined` for every store; in
particular with a synchronous store that holds `{"a":1}` under the resolved
key, the memo yields `undefined` rather than the store's answer. -/
theorem c3_read_never_awaits :
    (∀ (store : Store) (name : String), stateMemo (some store) name = .undef) ∧
    (getItem [("form", "\x7b\"a\":1\x7d")] "form" = some "\x7b\"a\":1\x7d" ∧
      stateMemo (some [("form", "\x7b\"a\":1\x7d")]) "form" ≠ .str "\x7b\"a\":1\x7d") :=
  ⟨fun _ _ => rfl, rfl, by decide⟩

/-- C7 counterexample: the empty string is a payload that is not valid
JSON, yet the restore effect skips it as falsy and emits zero diagnostics
rather than exactly one. -/
theorem c7_empty_payload_counterexample :
    jsonParse "" = none ∧
    (restoreEffect (some "") [] [("a", JValue.num 1)]).diagnostics = 0 :=
  ⟨rfl, rfl⟩

/-- C7 (amended): the restore effect consumes a parse failure locally — the
current values are untouched, `setValues` is not called, and exactly one
diagnostic is emitted for a nonempty invalid payload while the empty
payload is skipped as falsy with no diagnostic; totality of the model
reflects that the failure never escapes the effect. -/
theorem c7_parse_failure_recovery (s : String) (initialValues currentValues : FormValues)
    (hparse : jsonParse s = none) :
    restoreEffect (some s) initialValues currentValues
      = if s = "" then ⟨currentValues, 0, false⟩ else ⟨currentValues, 1, false⟩ := by
  simp only [restoreEffect]
  by_cases h : s = ""
  · rw [if_pos h, if_pos h]
  · rw [if_neg h, if_neg h, hparse]

/-- Witness for C7 at the concrete corrupt payload `notjson`. -/
theorem c7_parse_failure_recovery_witness :
    jsonParse "notjson" = none ∧
    restoreEffect (some "notjson") [] [("a", JValue.num 1)]
      = ⟨[("a", JValue.num 1)], 1, false⟩ :=
  ⟨rfl, by
    rw [c7_parse_failure_recovery "notjson" [] [("a", JValue.num 1)] rfl]
    rfl⟩

/-- C8 (code bug): in an execution context without a declared `window`,
`useStorage` throws a `ReferenceError` for both browser-storage choices
(and even for a custom store, since `useBrowser()` runs first) instead of
resolving to `undefined`; the `undefined` branch is reached only when
`window` is declared but falsy. -/
theorem c8_no_browser_throws :
    useStorage .localStorage .undeclared = .error .referenceError ∧
    useStorage .sessionStorage .undeclared = .error .referenceError ∧
    useStorage .custom .undeclared = .error .referenceError ∧
    useStorage .localStorage (.declared false) = .ok none ∧
    useStorage .sessionStorage (.declared false) = .ok none :=
  ⟨rfl, rfl, rfl, rfl, rfl⟩

/-- C9 counterexample: a store whose `setItem` throws synchronously makes
`handlePersistValues` propagate the exception to its caller — the write is
neither recovered locally nor reported as a diagnostic. -/
theorem c9_set_throw_counterexample :
    handlePersistValuesBehavior ⟨.ret none, .throws, .ret none, []⟩ "form" "form_"
      = .error .storeError :=
  rfl

/-- C9 (amended): only a rejected promise from the store's `getItem` is
caught and reported (once), the read then yielding no value; a synchronous
throw from `getItem` escapes the read memo, a synchronous throw from
`setItem` (or from `removeItem`, when the pruning loop runs) escapes the
persist handler (the `removeItem` case whenever a stale prefixed key is
enumerated), and rejected promises from `setItem`/`removeItem` are
silently unobserved — the handler succeeds with zero diagnostics. -/
theorem c9_failure_recovery (sb : StoreBehavior) (name keyName : String) :
    (sb.getOutcome = .rejects → stateMemoBehavior sb = .ok (.undef, 1)) ∧
    (sb.getOutcome = .throws → stateMemoBehavior sb = .error .storeError) ∧
    (sb.setOutcome = .throws →
      handlePersistValuesBehavior sb name keyName = .error .storeError) ∧
    (sb.setOutcome ≠ .throws → sb.removeOutcome ≠ .throws →
      handlePersistValuesBehavior sb name keyName = .ok 0) ∧
    (sb.setOutcome ≠ .throws →
      (sb.keys.filter (fun k => strContains k keyName && k != name)).isEmpty = true →
      handlePersistValuesBehavior sb name keyName = .ok 0) ∧
    (sb.setOutcome ≠ .throws → sb.removeOutcome = .throws →
      (sb.keys.filter (fun k => strContains k keyName && k != name)).isEmpty = false →
      handlePersistValuesBehavior sb name keyName = .error .storeError) := by
  refine ⟨fun hg => ?_, fun hg => ?_, fun hs => ?_, fun hs hr => ?_, fun hs hk => ?_,
    fun hs hr hk => ?_⟩
  · simp [stateMemoBehavior, hg]
  · simp [stateMemoBehavior, hg]
  · simp [handlePersistValuesBehavior, hs]
  · cases hcase : sb.setOutcome with
    | throws => exact absurd hcase hs
    | ret v =>
        cases hrcase : sb.removeOutcome with
        | throws => exact absurd hrcase hr
        | ret w => simp [handlePersistValuesBehavior, hcase, hrcase]
        | rejects => simp [handlePersistValuesBehavior, hcase, hrcase]
    | rejects =>
        cases hrcase : sb.removeOutcome with
        | throws => exact absurd hrcase hr
        | ret w => simp [handlePersistValuesBehavior, hcase, hrcase]
        | rejects => simp [handlePersistValuesBehavior, hcase, hrcase]
  · cases hcase : sb.setOutcome with
    | throws => exact absurd hcase hs
    | ret v => simp [handlePersistValuesBehavior, hcase, hk]
    | rejects => simp [handlePersistValuesBehavior, hcase, hk]
  · cases hcase : sb.setOutcome with
    | throws => exact absurd hcase hs
    | ret v => simp [handlePersistValuesBehavior, hcase, hk, hr]
    | rejects => simp [handlePersistValuesBehavior, hcase, hk, hr]

/-- Witness for C9: a store that rejects every operation — the read is
reported once and yields nothing, and the write handler succeeds with no
diagnostic despite the rejected `setItem` and `removeItem`; and a store
whose `removeItem` throws while the pruning loop has a stale key to remove
makes the handler propagate the exception. -/
theorem c9_failure_recovery_witness :
    stateMemoBehavior ⟨.rejects, .rejects, .rejects, ["form_1"]⟩ = .ok (.undef, 1) ∧
    handlePersistValuesBehavior ⟨.rejects, .rejects, .rejects, ["form_1"]⟩
        "form_2" "form_" = .ok 0 ∧
    handlePersistValuesBehavior ⟨.ret none, .ret none, .throws, ["form_1"]⟩
        "form_2" "form_" = .error .storeError :=
  ⟨(c9_failure_recovery ⟨.rejects, .rejects, .rejects, ["form_1"]⟩ "form_2" "form_").1 rfl,
    (c9_failure_recovery ⟨.rejects, .rejects, .rejects, ["form_1"]⟩ "form_2" "form_").2.2.2.1
      (by decide) (by decide),
    (c9_failure_recovery ⟨.ret none, .ret none, .throws, ["form_1"]⟩ "form_2" "form_").2.2.2.2.2
      (by decide) rfl (by decide)⟩

end FormikPersist
